import Mathlib

/-!
Shallow embedding of src/EstacaoMeteorologica.c (a Raspberry Pi Pico W
weather-station web server) and proofs about its navigation state machine,
sensor sampling, threshold alerting, HTTP dispatcher and response framing.

Floats are modelled as rationals: the program only adds offsets, divides by
1000 and compares, and every claim under scrutiny uses values that are exact
in binary floating point, so rational arithmetic is a faithful model of the
observable behaviour.  Machine integers (`uint32_t` timestamps) are modelled
as naturals reduced modulo 2^32 where the C arithmetic wraps.
-/

set_option maxRecDepth 100000

/-- Model of C `strlen` over the UTF-8 bytes of a string (the C source holds
UTF-8 text with no embedded NUL bytes, so `strlen` counts UTF-8 bytes). -/
def cStrlen (s : String) : Nat :=
  (s.data.map Char.utf8Size).sum

/-- Keep the longest prefix whose UTF-8 encoding fits in `n` bytes. -/
def cTruncAux : List Char → Nat → List Char
  | [], _ => []
  | c :: cs, n => if c.utf8Size ≤ n then c :: cTruncAux cs (n - c.utf8Size) else []

/-- Model of the byte-bounded copies in the C source (`strncpy` into a fixed
buffer with a forced terminating NUL, `pbuf_copy_partial` into a fixed
buffer, `snprintf` size bounds): the string is cut to at most `n` bytes.
When the cut would split a multi-byte character the C keeps the partial
bytes (invalid UTF-8); the model drops that character.  All inputs relevant
to the claims are ASCII, where the two agree exactly. -/
def cTrunc (s : String) (n : Nat) : String :=
  String.mk (cTruncAux s.data n)

/-- Does `pat` occur at the head of `l`? -/
def startsWithC : List Char → List Char → Bool
  | [], _ => true
  | _ :: _, [] => false
  | a :: as, b :: bs => a = b && startsWithC as bs

/-- Left-to-right split of `l` at non-overlapping occurrences of `sep`,
written with explicit fuel so that it is structurally recursive (one
character is consumed per step, so `l.length + 1` fuel always suffices and
the zero-fuel branch is unreachable). -/
def splitOnCF (sep : List Char) : Nat → List Char → List Char → List (List Char)
  | _, [], acc => [acc.reverse]
  | 0, l, acc => [acc.reverse ++ l]
  | fuel + 1, c :: cs, acc =>
    if startsWithC sep (c :: cs) then
      acc.reverse :: splitOnCF sep fuel (List.drop (sep.length - 1) cs) []
    else splitOnCF sep fuel cs (c :: acc)

/-- Split `l` at occurrences of the (non-empty) separator `sep`. -/
def splitOnC (sep l : List Char) : List (List Char) :=
  splitOnCF sep (l.length + 1) l []

/-- Join character lists with a separator (inverse of `splitOnC` on the
tail parts). -/
def intercalateC (sep : List Char) : List (List Char) → List Char
  | [] => []
  | [x] => x
  | x :: xs => x ++ sep ++ intercalateC sep xs

/-- Split a string at occurrences of the separator `sep`. -/
def splitStr (sep s : String) : List String :=
  (splitOnC sep.data s.data).map String.mk

/-- Model of C `strstr(hay, needle) != NULL`: does `needle` occur as a
substring of `hay`? -/
def strstrB (hay needle : String) : Bool :=
  decide (2 ≤ (splitStr needle hay).length)

/-- Model of C `strstr(hay, sep)` followed by skipping over `sep`: the text
after the first occurrence of `sep`, or `none` when `sep` does not occur. -/
def strstrAfter (hay sep : String) : Option String :=
  match splitOnC sep.data hay.data with
  | [] => none
  | [_] => none
  | _ :: rest => some (String.mk (intercalateC sep.data rest))

/-- Reduce to the range of `uint32_t`. -/
def u32 (n : Nat) : Nat := n % 4294967296

/-- C `uint32_t` subtraction `a - b` (wraps modulo 2^32). -/
def u32_sub (a b : Nat) : Nat := (u32 a + 4294967296 - u32 b) % 4294967296

/-- Is `c` one of the C `isspace` characters? -/
def isSpaceC (c : Char) : Bool :=
  c = ' ' || c = '\t' || c = '\n' || c = '\x0b' || c = '\x0c' || c = '\r'

/-- Is `c` a decimal digit? -/
def isDigitC (c : Char) : Bool := '0' ≤ c && c ≤ '9'

/-- Decimal value of a digit string. -/
def digitsToNat (ds : List Char) : Nat :=
  ds.foldl (fun n c => n * 10 + (c.toNat - 48)) 0

/-- Model of C `atof` (= `strtod` with the decimal syntax): skip leading
whitespace, optional sign, integer digits, optional fraction, optional
`e`/`E` exponent (ignored when no exponent digits follow, as `strtod`
backtracks); any text that yields no conversion gives `0.0`.  The C
function additionally accepts hex floats and `inf`/`nan` spellings, which
cannot arise from the numeric web form and are outside this model. -/
def atofQ (s : String) : ℚ :=
  let cs := s.data.dropWhile isSpaceC
  let sign : ℚ := match cs with
    | '-' :: _ => -1
    | _ => 1
  let cs := match cs with
    | '-' :: rest => rest
    | '+' :: rest => rest
    | _ => cs
  let intDigits := cs.takeWhile isDigitC
  let cs1 := cs.dropWhile isDigitC
  let fracDigits := match cs1 with
    | '.' :: rest => rest.takeWhile isDigitC
    | _ => []
  let cs2 := match cs1 with
    | '.' :: rest => rest.dropWhile isDigitC
    | _ => cs1
  if intDigits = [] ∧ fracDigits = [] then 0
  else
    let mantissa : ℚ :=
      sign * ((digitsToNat (intDigits ++ fracDigits) : ℚ) / 10 ^ fracDigits.length)
    match cs2 with
    | e :: rest =>
      if e = 'e' ∨ e = 'E' then
        let esign : ℤ := match rest with
          | '-' :: _ => -1
          | _ => 1
        let rest1 := match rest with
          | '-' :: r => r
          | '+' :: r => r
          | _ => rest
        let eds := rest1.takeWhile isDigitC
        if eds = [] then mantissa
        else mantissa * (10 : ℚ) ^ (esign * (digitsToNat eds : ℤ))
      else mantissa
    | [] => mantissa

/-- Model of `printf`-family `%.*f` fixed formatting of a value that is exact
in the floating representation: round to `d` decimal places and print with
exactly `d` fraction digits.  (For values not exactly representable the C
output is determined by the binary double and the FP rounding mode; every
value formatted in the claims is exact, where the two agree.) -/
def fmtFixed (d : Nat) (q : ℚ) : String :=
  let n : ℤ := round (q * (10 ^ d : ℚ))
  let m := n.natAbs
  let ip := m / 10 ^ d
  let fp := m % 10 ^ d
  let fps := toString fp
  let pad := String.mk (List.replicate (d - fps.length) '0')
  (if n < 0 then "-" else "") ++ toString ip ++ "." ++ pad ++ fps

/-- The twelve configuration scalars (globals `g_temp_offset` ... `g_alt_max`
in the C source). -/
structure Config where
  temp_offset : ℚ
  temp_min : ℚ
  temp_max : ℚ
  umid_offset : ℚ
  umid_min : ℚ
  umid_max : ℚ
  press_offset : ℚ
  press_min : ℚ
  press_max : ℚ
  alt_offset : ℚ
  alt_min : ℚ
  alt_max : ℚ
deriving DecidableEq, Repr

/-- Startup values of the configuration globals (source lines 70-73). -/
def initialConfig : Config :=
  { temp_offset := 0, temp_min := 10, temp_max := 40
  , umid_offset := 0, umid_min := 60, umid_max := 85
  , press_offset := 0, press_min := 85, press_max := 105
  , alt_offset := 0, alt_min := 800, alt_max := 900 }

/-- The four calibrated readings (globals `g_temperatura`, `g_umidade`,
`g_pressao`, `g_altitude`). -/
structure Readings where
  g_temperatura : ℚ
  g_umidade : ℚ
  g_pressao : ℚ
  g_altitude : ℚ
deriving DecidableEq, Repr

/-- The page list used for button navigation (source line 63). -/
def G_PAGES : List String :=
  ["/", "/config", "/temperatura", "/umidade", "/pressao", "/altitude"]

/-- Source line 64 is `const int G_NUM_PAGES = sizeof(G_PAGES);`: `sizeof`
of the array yields its size in bytes, 6 pointers of 4 bytes each on the
32-bit rp2040 target, hence 24 - not the element count 6 that the adjacent
comment (`Calcula o numero total de paginas`) intends. -/
def G_NUM_PAGES : Int := 6 * 4

/-- Debounce window in milliseconds (source line 58). -/
def DEBOUNCE_MS : Nat := 500

/-- Marker standing for the garbage pointer produced by the out-of-bounds
array read `G_PAGES[i]` when `i` is outside `[0, 6)` - undefined behaviour
in the C source, which a shallow embedding can only tag. -/
def oobMark (i : Int) : String := "<out-of-bounds page " ++ toString i ++ ">"

/-- The pointer value stored by `g_target_page = G_PAGES[i]`. -/
def pagePtr (i : Int) : String :=
  if i < 0 then oobMark i else ((G_PAGES.get? i.toNat).getD (oobMark i))

/-- The mutable globals shared by the interrupt handler, the poll loop and
the TCP receive callback. -/
structure SystemState where
  config : Config
  readings : Readings
  g_current_page_index : Int
  g_target_page : Option String
  g_last_press_time : Nat
deriving DecidableEq, Repr

/-- State of the globals at startup (all readings zero, no pending target,
index 0, last press time 0). -/
def initialState : SystemState :=
  { config := initialConfig
  , readings := { g_temperatura := 0, g_umidade := 0, g_pressao := 0, g_altitude := 0 }
  , g_current_page_index := 0
  , g_target_page := none
  , g_last_press_time := 0 }

/-- Which physical button fired the edge interrupt (GPIO 5 = A, GPIO 6 = B;
only these two pins have the callback registered). -/
inductive Button
  | A
  | B
deriving DecidableEq, Repr

/-- Embedding of `gpio_callback` (source lines 409-438): debounce against the
last press time with `uint32_t` arithmetic, move the page index with wrap
at `G_NUM_PAGES`, and publish `G_PAGES[g_current_page_index]` as the
pending navigation target. -/
def gpio_callback (btn : Button) (now : Nat) (s : SystemState) : SystemState :=
  if u32_sub now s.g_last_press_time < DEBOUNCE_MS then s
  else
    let s1 := { s with g_last_press_time := u32 now }
    let idx : Int :=
      match btn with
      | Button.A =>
        let i := s1.g_current_page_index - 1
        if i < 0 then G_NUM_PAGES - 1 else i
      | Button.B =>
        let i := s1.g_current_page_index + 1
        if i ≥ G_NUM_PAGES then 0 else i
    { s1 with g_current_page_index := idx, g_target_page := some (pagePtr idx) }
def HTML_HEADER : String :=
  "<!DOCTYPE html><html lang=\x27pt-BR\x27><head><meta charset=\x27UTF-8\x27>"
  ++ "<meta name=\x27viewport\x27 content=\x27width=device-width, initial-scale=1\x27>"
  ++ "<title>Web Display</title>"
  ++ "<link href=\x27https://cdn.jsdelivr.net/npm/bootstrap@5.3.3/dist/css/bootstrap.min.css\x27 rel=\x27stylesheet\x27>"
  ++ "<script src=\x27https://cdn.jsdelivr.net/npm/chart.js\x27></script>"
  ++ "<script src=\x27https://cdn.jsdelivr.net/npm/chartjs-plugin-annotation@3.0.1/dist/chartjs-plugin-annotation.min.js\x27></script>"
  ++ "<style>"
  ++ "body \x7b background-color: #f0f2f5; \x7d"
  ++ ".card p \x7b font-size: 2.5rem; font-weight: 300; margin-bottom: 0; \x7d"
  ++ ".card .card-footer \x7b font-size: 0.85rem; color: #6c757d; \x7d"
  ++ ".form-grid-item \x7b display: flex; flex-direction: column; text-align: left; \x7d"
  ++ "</style>"
  ++ "<script>"
  ++ "function checkNavigation()\x7b"
  ++ "fetch(\x27/navigate\x27).then(r=>r.json()).then(d=>\x7b"
  ++ "if(d&&d.goto&&window.location.pathname!==d.goto)\x7bwindow.location.href=d.goto;\x7d"
  ++ "\x7d).catch(e=>\x7b\x7d);"
  ++ "\x7d"
  ++ "setInterval(checkNavigation,1200);"
  ++ "</script>"
  ++ "</head><body class=\x27text-center\x27>"

def HTML_NAV : String :=
  "<nav class=\x27navbar navbar-expand-lg navbar-light bg-white shadow-sm mb-4\x27>"
  ++ "<div class=\x27container-fluid\x27>"
  ++ "<a class=\x27navbar-brand\x27 href=\x27/\x27>Web Display</a>"
  ++ "<button class=\x27navbar-toggler\x27 type=\x27button\x27 data-bs-toggle=\x27collapse\x27 data-bs-target=\x27#navbarNav\x27>"
  ++ "<span class=\x27navbar-toggler-icon\x27></span>"
  ++ "</button>"
  ++ "<div class=\x27collapse navbar-collapse\x27 id=\x27navbarNav\x27>"
  ++ "<ul class=\x27navbar-nav me-auto mb-2 mb-lg-0\x27>"
  ++ "<li class=\x27nav-item\x27><a class=\x27nav-link\x27 href=\x27/\x27>Início</a></li>"
  ++ "<li class=\x27nav-item\x27><a class=\x27nav-link\x27 href=\x27/config\x27>Configurações</a></li>"
  ++ "<li class=\x27nav-item\x27><a class=\x27nav-link\x27 href=\x27/temperatura\x27>Temperatura</a></li>"
  ++ "<li class=\x27nav-item\x27><a class=\x27nav-link\x27 href=\x27/umidade\x27>Umidade</a></li>"
  ++ "<li class=\x27nav-item\x27><a class=\x27nav-link\x27 href=\x27/pressao\x27>Pressão</a></li>"
  ++ "<li class=\x27nav-item\x27><a class=\x27nav-link\x27 href=\x27/altitude\x27>Altitude</a></li>"
  ++ "</ul>"
  ++ "</div>"
  ++ "</div>"
  ++ "</nav>"

def HTML_CONTENT_INICIO : String :=
  "<main class=\x27container\x27>"
  ++ "<h1>Painel de Controle</h1>"
  ++ "<div class=\x27row g-4 justify-content-center mt-3\x27 id=\x27cards-container\x27>"
  ++ "<div class=\x27col-12 col-md-6 col-lg-3\x27><div class=\x27card shadow-sm\x27><div class=\x27card-body\x27><h2>Temperatura</h2><p><span id=\x27temp_valor\x27>--</span> °C</p></div></div></div>"
  ++ "<div class=\x27col-12 col-md-6 col-lg-3\x27><div class=\x27card shadow-sm\x27><div class=\x27card-body\x27><h2>Umidade</h2><p><span id=\x27umidade_valor\x27>--</span> %</p></div></div></div>"
  ++ "<div class=\x27col-12 col-md-6 col-lg-3\x27><div class=\x27card shadow-sm\x27><div class=\x27card-body\x27><h2>Pressão</h2><p><span id=\x27pressao_valor\x27>--</span> kPa</p></div></div></div>"
  ++ "<div class=\x27col-12 col-md-6 col-lg-3\x27><div class=\x27card shadow-sm\x27><div class=\x27card-body\x27><h2>Altitude</h2><p><span id=\x27alt_valor\x27>--</span> m</p></div></div></div>"
  ++ "</div>"
  ++ "</main>"
  ++ "<script>"
  ++ "function atualizarValores()\x7bfetch(\x27/estado\x27).then(r=>r.json()).then(d=>\x7bdocument.getElementById(\x27temp_valor\x27).innerText=d.temperatura.toFixed(2);document.getElementById(\x27umidade_valor\x27).innerText=d.umidade.toFixed(2);document.getElementById(\x27pressao_valor\x27).innerText=d.pressao.toFixed(3);document.getElementById(\x27alt_valor\x27).innerText=d.altitude.toFixed(2);\x7d).catch(e=>console.error(e));\x7d"
  ++ "setInterval(atualizarValores,2000);window.onload=atualizarValores;"
  ++ "</script>"

def HTML_CONTENT_CONFIG : String :=
  "<main class=\x27container d-flex justify-content-center\x27>"
  ++ "<div class=\x27card shadow-sm\x27 style=\x27max-width: 800px; flex-grow: 1;\x27>"
  ++ "<div class=\x27card-body\x27>"
  ++ "<h2 class=\x27card-title\x27>Limites e Calibração</h2>"
  ++ "<form id=\x27configForm\x27 class=\x27mt-4\x27>"
  ++ "<h4>Temperatura (°C)</h4>"
  ++ "<div class=\x27row g-3 align-items-center mb-3\x27>"
  ++ "<div class=\x27col-md-4 form-grid-item\x27><label for=\x27temp_min\x27 class=\x27form-label\x27>Mínimo:</label><input type=\x27number\x27 step=\x27any\x27 id=\x27temp_min\x27 name=\x27temp_min\x27 class=\x27form-control\x27></div>"
  ++ "<div class=\x27col-md-4 form-grid-item\x27><label for=\x27temp_max\x27 class=\x27form-label\x27>Máximo:</label><input type=\x27number\x27 step=\x27any\x27 id=\x27temp_max\x27 name=\x27temp_max\x27 class=\x27form-control\x27></div>"
  ++ "<div class=\x27col-md-4 form-grid-item\x27><label for=\x27temp_offset\x27 class=\x27form-label\x27>Offset:</label><input type=\x27number\x27 step=\x27any\x27 id=\x27temp_offset\x27 name=\x27temp_offset\x27 class=\x27form-control\x27></div>"
  ++ "</div><hr>"
  ++ "<h4>Umidade (%)</h4>"
  ++ "<div class=\x27row g-3 align-items-center mb-3\x27>"
  ++ "<div class=\x27col-md-4 form-grid-item\x27><label for=\x27umid_min\x27 class=\x27form-label\x27>Mínimo:</label><input type=\x27number\x27 step=\x27any\x27 id=\x27umid_min\x27 name=\x27umid_min\x27 class=\x27form-control\x27></div>"
  ++ "<div class=\x27col-md-4 form-grid-item\x27><label for=\x27umid_max\x27 class=\x27form-label\x27>Máximo:</label><input type=\x27number\x27 step=\x27any\x27 id=\x27umid_max\x27 name=\x27umid_max\x27 class=\x27form-control\x27></div>"
  ++ "<div class=\x27col-md-4 form-grid-item\x27><label for=\x27umid_offset\x27 class=\x27form-label\x27>Offset:</label><input type=\x27number\x27 step=\x27any\x27 id=\x27umid_offset\x27 name=\x27umid_offset\x27 class=\x27form-control\x27></div>"
  ++ "</div><hr>"
  ++ "<h4>Pressão (kPa)</h4>"
  ++ "<div class=\x27row g-3 align-items-center mb-3\x27>"
  ++ "<div class=\x27col-md-4 form-grid-item\x27><label for=\x27press_min\x27 class=\x27form-label\x27>Mínimo:</label><input type=\x27number\x27 step=\x27any\x27 id=\x27press_min\x27 name=\x27press_min\x27 class=\x27form-control\x27></div>"
  ++ "<div class=\x27col-md-4 form-grid-item\x27><label for=\x27press_max\x27 class=\x27form-label\x27>Máximo:</label><input type=\x27number\x27 step=\x27any\x27 id=\x27press_max\x27 name=\x27press_max\x27 class=\x27form-control\x27></div>"
  ++ "<div class=\x27col-md-4 form-grid-item\x27><label for=\x27press_offset\x27 class=\x27form-label\x27>Offset:</label><input type=\x27number\x27 step=\x27any\x27 id=\x27press_offset\x27 name=\x27press_offset\x27 class=\x27form-control\x27></div>"
  ++ "</div><hr>"
  ++ "<h4>Altitude (m)</h4>"
  ++ "<div class=\x27row g-3 align-items-center mb-3\x27>"
  ++ "<div class=\x27col-md-4 form-grid-item\x27><label for=\x27alt_min\x27 class=\x27form-label\x27>Mínimo:</label><input type=\x27number\x27 step=\x27any\x27 id=\x27alt_min\x27 name=\x27alt_min\x27 class=\x27form-control\x27></div>"
  ++ "<div class=\x27col-md-4 form-grid-item\x27><label for=\x27alt_max\x27 class=\x27form-label\x27>Máximo:</label><input type=\x27number\x27 step=\x27any\x27 id=\x27alt_max\x27 name=\x27alt_max\x27 class=\x27form-control\x27></div>"
  ++ "<div class=\x27col-md-4 form-grid-item\x27><label for=\x27alt_offset\x27 class=\x27form-label\x27>Offset:</label><input type=\x27number\x27 step=\x27any\x27 id=\x27alt_offset\x27 name=\x27alt_offset\x27 class=\x27form-control\x27></div>"
  ++ "</div>"
  ++ "<button type=\x27submit\x27 class=\x27btn btn-primary mt-3\x27>Salvar Configurações</button>"
  ++ "<p id=\x27saveStatus\x27 class=\x27mt-2\x27 style=\x27color:green; font-weight:bold;\x27></p>"
  ++ "</form>"
  ++ "</div></div>"
  ++ "</main>"
  ++ "<script>"
  ++ "window.onload=()=>\x7bfetch(\x27/getconfig\x27).then(r=>r.json()).then(d=>\x7bfor(const key in d)\x7blet el=document.getElementById(key);if(el)el.value=d[key];\x7d\x7d).catch(e=>console.error(\x27Erro:\x27,e));\x7d;"
  ++ "document.getElementById(\x27configForm\x27).addEventListener(\x27submit\x27,e=>\x7b"
  ++ "e.preventDefault();const formData=new FormData(e.target);const status=document.getElementById(\x27saveStatus\x27);"
  ++ "status.textContent=\x27Salvando...\x27;"
  ++ "fetch(\x27/config\x27,\x7bmethod:\x27POST\x27,body:new URLSearchParams(formData)\x7d)"
  ++ ".then(res=>\x7bif(res.ok)status.textContent=\x27Configurações salvas!\x27;else status.textContent=\x27Falha ao salvar.\x27;setTimeout(()=>status.textContent=\x27\x27,3000);\x7d)"
  ++ ".catch(e=>\x7bconsole.error(e);status.textContent=\x27Erro de comunicação.\x27;\x7d);"
  ++ "\x7d);"
  ++ "</script>"

def HTML_CONTENT_CHART_PAGE : String :=
  "<h1 id=\x27page-title\x27>Gráfico</h1>"
  ++ "<div class=\x27container\x27><div class=\x27card chart-card\x27><canvas id=\x27chart\x27></canvas></div></div>"
  ++ "<script>"
  ++ "const page_configs=\x7b"
  ++ "\x27/temperatura\x27:\x7bkey:\x27temperatura\x27,sufix:\x27temp\x27,title:\x27Temperatura\x27,label:\x27Temperatura (°C)\x27,color:\x27rgb(255,99,132)\x27,alpha:\x27rgba(255,99,132,0.2)\x27\x7d,"
  ++ "\x27/umidade\x27:\x7bkey:\x27umidade\x27,sufix:\x27umid\x27,title:\x27Umidade\x27,label:\x27Umidade (%)\x27,color:\x27rgb(54,162,235)\x27,alpha:\x27rgba(54,162,235,0.2)\x27\x7d,"
  ++ "\x27/pressao\x27:\x7bkey:\x27pressao\x27,sufix:\x27press\x27,title:\x27Pressão\x27,label:\x27Pressão (kPa)\x27,color:\x27rgb(75,192,192)\x27,alpha:\x27rgba(75,192,192,0.2)\x27\x7d,"
  ++ "\x27/altitude\x27:\x7bkey:\x27altitude\x27,sufix:\x27alt\x27,title:\x27Altitude\x27,label:\x27Altitude (m)\x27,color:\x27rgb(153,102,255)\x27,alpha:\x27rgba(153,102,255,0.2)\x27\x7d"
  ++ "\x7d;"
  ++ "const config=page_configs[window.location.pathname];"
  ++ "document.getElementById(\x27page-title\x27).textContent=\x27Gráfico de \x27+config.title;"
  ++ "let chart;"
  ++ "function createChart(limits)\x7b"
  ++ "const min_val=limits[config.sufix+\x27_min\x27];const max_val=limits[config.sufix+\x27_max\x27];"
  ++ "const ctx=document.getElementById(\x27chart\x27).getContext(\x272d\x27);"
  ++ "chart=new Chart(ctx,\x7btype:\x27line\x27,data:\x7blabels:[],datasets:[\x7blabel:config.label,data:[],borderColor:config.color,backgroundColor:config.alpha,borderWidth:2,fill:true,tension:0.1\x7d]\x7d,"
  ++ "options:\x7bplugins:\x7bannotation:\x7bannotations:\x7b"
  ++ "line_min:\x7btype:\x27line\x27,yMin:min_val,yMax:min_val,borderColor:\x27red\x27,borderWidth:2,borderDash:[6,6],label:\x7bcontent:\x27Mín: \x27+min_val,enabled:true,position:\x27start\x27\x7d\x7d,"
  ++ "line_max:\x7btype:\x27line\x27,yMin:max_val,yMax:max_val,borderColor:\x27green\x27,borderWidth:2,borderDash:[6,6],label:\x7bcontent:\x27Máx: \x27+max_val,enabled:true,position:\x27start\x27\x7d\x7d"
  ++ "\x7d\x7d\x7d\x7d\x7d);"
  ++ "\x7d"
  ++ "function addData(d)\x7bif(!chart)return;const t=new Date().toLocaleTimeString(\x27pt-BR\x27,\x7bhour:\x272-digit\x27,minute:\x272-digit\x27,second:\x272-digit\x27\x7d);chart.data.labels.push(t);chart.data.datasets[0].data.push(d);if(chart.data.labels.length>%d) \x7bchart.data.labels.shift();chart.data.datasets[0].data.shift();\x7dchart.update(\x27none\x27);\x7d"
  ++ "function atualizarGrafico()\x7bfetch(\x27/estado\x27).then(r=>r.json()).then(d=>addData(d[config.key])).catch(e=>console.error(\x27Erro:\x27,e));\x7d"
  ++ "window.onload=()=>\x7bfetch(\x27/getconfig\x27).then(r=>r.json()).then(limits=>\x7bcreateChart(limits);atualizarGrafico();setInterval(atualizarGrafico,2000);\x7d).catch(e=>console.error(\x27Erro:\x27,e));\x7d;"
  ++ "</script>"

def HTML_FOOTER : String :=
  "<script src=\x27https://cdn.jsdelivr.net/npm/bootstrap@5.3.3/dist/js/bootstrap.bundle.min.js\x27></script>"
  ++ "</body></html>"

/-- One `strcmp` chain iteration of `parse_post_data` (source lines 510-533):
overwrite the configuration scalar selected by `key`, ignore unknown keys. -/
def applyKV (c : Config) (key : String) (value : ℚ) : Config :=
  if key = "temp_offset" then { c with temp_offset := value }
  else if key = "temp_min" then { c with temp_min := value }
  else if key = "temp_max" then { c with temp_max := value }
  else if key = "umid_offset" then { c with umid_offset := value }
  else if key = "umid_min" then { c with umid_min := value }
  else if key = "umid_max" then { c with umid_max := value }
  else if key = "press_offset" then { c with press_offset := value }
  else if key = "press_min" then { c with press_min := value }
  else if key = "press_max" then { c with press_max := value }
  else if key = "alt_offset" then { c with alt_offset := value }
  else if key = "alt_min" then { c with alt_min := value }
  else if key = "alt_max" then { c with alt_max := value }
  else c

/-- Split one `key=value` token the way `strchr(token, =)` does: the key is
the text before the first `=`, the value the whole text after it; a token
with no `=` yields nothing and is skipped. -/
def kvOf (token : String) : Option (String × String) :=
  match splitOnC "=".data token.data with
  | [] => none
  | [_] => none
  | k :: rest => some (String.mk k, String.mk (intercalateC "=".data rest))

/-- Process one `strtok` token of the POST body. -/
def applyToken (c : Config) (token : String) : Config :=
  match kvOf token with
  | some (k, v) => applyKV c k (atofQ v)
  | none => c

/-- The `strtok(buffer, "&")` token stream of `parse_post_data`: the body is
first copied into a 512-byte buffer (so cut to 511 bytes plus NUL), then
split on `&`; `strtok` never yields empty tokens. -/
def postTokens (data : String) : List String :=
  (splitStr "&" (cTrunc data 511)).filter (fun t => t ≠ "")

/-- Embedding of `parse_post_data` (source lines 493-537). -/
def parse_post_data (data : String) (c : Config) : Config :=
  (postTokens data).foldl applyToken c

/-- The value text of the last token assigning `key`, if any (later tokens
win because each assignment overwrites the scalar). -/
def lastVal (key : String) : List String → Option String
  | [] => none
  | t :: ts =>
    match lastVal key ts with
    | some v => some v
    | none =>
      match kvOf t with
      | some (k, v) => if k = key then some v else none
      | none => none

/-- `%.2f` of the weather-station JSON payloads. -/
def fmt2 (q : ℚ) : String := fmtFixed 2 q

/-- `%.3f` used for the pressure field of `/estado`. -/
def fmt3 (q : ℚ) : String := fmtFixed 3 q

/-- The `/getconfig` JSON payload before the 512-byte `snprintf` bound
(source lines 581-588). -/
def getconfigJson (c : Config) : String :=
  "\x7b\"temp_offset\":" ++ fmt2 c.temp_offset
  ++ ",\"temp_min\":" ++ fmt2 c.temp_min
  ++ ",\"temp_max\":" ++ fmt2 c.temp_max
  ++ ",\"umid_offset\":" ++ fmt2 c.umid_offset
  ++ ",\"umid_min\":" ++ fmt2 c.umid_min
  ++ ",\"umid_max\":" ++ fmt2 c.umid_max
  ++ ",\"press_offset\":" ++ fmt2 c.press_offset
  ++ ",\"press_min\":" ++ fmt2 c.press_min
  ++ ",\"press_max\":" ++ fmt2 c.press_max
  ++ ",\"alt_offset\":" ++ fmt2 c.alt_offset
  ++ ",\"alt_min\":" ++ fmt2 c.alt_min
  ++ ",\"alt_max\":" ++ fmt2 c.alt_max
  ++ "\x7d"

/-- The `/estado` JSON payload before the 128-byte `snprintf` bound
(source lines 593-596). -/
def estadoJson (r : Readings) : String :=
  "\x7b\"temperatura\":" ++ fmt2 r.g_temperatura
  ++ ",\"umidade\":" ++ fmt2 r.g_umidade
  ++ ",\"pressao\":" ++ fmt3 r.g_pressao
  ++ ",\"altitude\":" ++ fmt2 r.g_altitude
  ++ "\x7d"

/-- The HTML response header built by `send_full_response`; its `snprintf`
bound of 128 bytes never binds because the declared length has at most five
digits. -/
def mkHtmlHeader (n : Nat) : String :=
  "HTTP/1.1 200 OK\r\nContent-Type: text/html\r\nContent-Length: "
  ++ toString n ++ "\r\nConnection: close\r\n\r\n"

/-- The JSON response header built by `send_json_response`; its 128-byte
`snprintf` bound never binds because every payload is at most 511 bytes. -/
def mkJsonHeader (n : Nat) : String :=
  "HTTP/1.1 200 OK\r\nContent-Type: application/json\r\nContent-Length: "
  ++ toString n ++ "\r\nConnection: close\r\n\r\n"

/-- The fixed reply of the `POST /config` handler (source line 575). -/
def empty200 : String := "HTTP/1.1 200 OK\r\nContent-Length: 0\r\n\r\n"

/-- `snprintf(final_content, sizeof(final_content), content_template,
MAX_CHART_POINTS)`: substitute the decimal rendering of 20 for `%d`.  (The
only template containing `%d` is the chart page; its unrelated literal `%)`
text is an inert conversion that common C libraries print unchanged.) -/
def substFmt (s : String) : String :=
  String.mk (intercalateC (Nat.repr 20).data (splitOnC "%d".data s.data))

/-- Embedding of `send_full_response` (source lines 453-478): fill the
template into a 4096-byte buffer, compute the content length as the byte
length of the four body chunks, and emit header plus chunks in order. -/
def send_full_response (content_template : String) : List String :=
  let final_content :=
    if strstrB content_template "%d" then cTrunc (substFmt content_template) 4095
    else cTrunc content_template 4095
  let content_len :=
    cStrlen HTML_HEADER + cStrlen HTML_NAV + cStrlen final_content + cStrlen HTML_FOOTER
  [mkHtmlHeader content_len, HTML_HEADER, HTML_NAV, final_content, HTML_FOOTER]

/-- Embedding of `send_json_response` (source lines 481-490). -/
def send_json_response (payload : String) : List String :=
  [mkJsonHeader (cStrlen payload), payload]

/-- Embedding of `tcp_server_recv` (source lines 540-621): copy at most 1023
bytes of the request into the buffer, route by `strstr` substring tests in
source order, and return the updated globals together with the list of
chunks written to the socket. -/
def tcp_server_recv (request : String) (s : SystemState) : SystemState × List String :=
  let request_buffer := cTrunc request 1023
  if strstrB request_buffer "GET /navigate " then
    match s.g_target_page with
    | some page =>
      ({ s with g_target_page := none },
        send_json_response (cTrunc ("\x7b\"goto\":\"" ++ page ++ "\"\x7d") 127))
    | none =>
      (s, send_json_response (cTrunc "\x7b\"goto\":null\x7d" 127))
  else if strstrB request_buffer "POST /config " then
    let s1 :=
      match strstrAfter request_buffer "\r\n\r\n" with
      | some body => { s with config := parse_post_data body s.config }
      | none => s
    (s1, [empty200])
  else if strstrB request_buffer "GET /getconfig " then
    (s, send_json_response (cTrunc (getconfigJson s.config) 511))
  else if strstrB request_buffer "GET /estado " then
    (s, send_json_response (cTrunc (estadoJson s.readings) 127))
  else
    let content_to_send :=
      if strstrB request_buffer "GET /config " then HTML_CONTENT_CONFIG
      else if strstrB request_buffer "GET /temperatura " || strstrB request_buffer "GET /umidade "
          || strstrB request_buffer "GET /pressao " || strstrB request_buffer "GET /altitude " then
        HTML_CONTENT_CHART_PAGE
      else HTML_CONTENT_INICIO
    (s, send_full_response content_to_send)

/-- Embedding of the 2000 ms sensor block of `main` (source lines 300-340):
overwrite the four calibrated readings from the fresh raw samples plus the
configured offsets, then derive the alert flag from the temperature and
humidity bands.  `calculate_altitude` uses a transcendental `pow`, so the
altitude conversion is abstracted as the parameter `altFn`; the claims do
not depend on its value. -/
def sample_cycle (aht_temp aht_hum pressure_pa : ℚ) (altFn : ℚ → ℚ)
    (s : SystemState) : SystemState × Bool :=
  let r : Readings :=
    { g_temperatura := aht_temp + s.config.temp_offset
    , g_umidade := aht_hum + s.config.umid_offset
    , g_pressao := pressure_pa / 1000 + s.config.press_offset
    , g_altitude := altFn pressure_pa + s.config.alt_offset }
  let em_alerta := false
  let em_alerta :=
    if r.g_temperatura > s.config.temp_max ∨ r.g_temperatura < s.config.temp_min then true
    else em_alerta
  let em_alerta :=
    if r.g_umidade > s.config.umid_max ∨ r.g_umidade < s.config.umid_min then true
    else em_alerta
  ({ s with readings := r }, em_alerta)

/-- One iteration of the main poll loop timing check (source line 301): the
sensor block runs only when at least 2000 ms have elapsed since the last
sensor read, measured with `uint32_t` arithmetic. -/
def loop_iteration (aht_temp aht_hum pressure_pa : ℚ) (altFn : ℚ → ℚ)
    (now last_sensor_read_ms : Nat) (s : SystemState) : SystemState × Nat :=
  if u32_sub now last_sensor_read_ms ≥ 2000 then
    ((sample_cycle aht_temp aht_hum pressure_pa altFn s).1, now)
  else (s, last_sensor_read_ms)

/-- Spec-side reading of a request (used to state claim C6 as written): the
method and path are the first two space-separated words of the request
line.  This definition follows the specification text, not the C code,
which never parses the request line. -/
def requestMethodPath (buf : String) : String × String :=
  let line := (splitStr "\r\n" buf).headD ""
  match splitStr " " line with
  | m :: p :: _ => (m, p)
  | _ => ("", "")

/-- The fixed route table of the specification (spec section 4.3). -/
def routeTable : List (String × String) :=
  [("GET", "/navigate"), ("POST", "/config"), ("GET", "/getconfig"),
   ("GET", "/estado"), ("GET", "/config"), ("GET", "/temperatura"),
   ("GET", "/umidade"), ("GET", "/pressao"), ("GET", "/altitude")]

lemma cStrlen_append (a b : String) : cStrlen (a ++ b) = cStrlen a + cStrlen b := by
  cases a with
  | mk da =>
    cases b with
    | mk db =>
      show cStrlen (String.mk (da ++ db)) = _
      simp [cStrlen]

lemma join_singleton (p : String) : String.join [p] = p := by
  cases p with
  | mk dp =>
    show String.mk ([] ++ dp) = String.mk dp
    simp

/-- Claim C1: the specification says that accepted button edges keep
`currentIndex` in `[0, 6)` - button A maps `i` to `(i - 1 + 6) mod 6`,
button B maps `i` to `(i + 1) mod 6` - and publish `pages[currentIndex]`.
The code instead wraps the index at `G_NUM_PAGES = sizeof(G_PAGES) = 24`
(array size in bytes, not element count, contradicting the source comment
that it computes the number of pages), so six accepted B edges drive the
index to 6, `G_PAGES[6]` is an out-of-bounds read, and an accepted A edge
from startup jumps to index 23 instead of 5. -/
theorem c1_index_escapes_page_bounds :
    (List.foldl (fun st t => gpio_callback Button.B t st) initialState
        [600, 1200, 1800, 2400, 3000, 3600]).g_current_page_index = 6 ∧
    ¬ ((List.foldl (fun st t => gpio_callback Button.B t st) initialState
        [600, 1200, 1800, 2400, 3000, 3600]).g_current_page_index < 6) ∧
    G_PAGES.get? 6 = none ∧
    (List.foldl (fun st t => gpio_callback Button.B t st) initialState
        [600, 1200, 1800, 2400, 3000, 3600]).g_target_page = some (oobMark 6) ∧
    (gpio_callback Button.A 600 initialState).g_current_page_index = 23 ∧
    G_NUM_PAGES = 24 ∧ G_PAGES.length = 6 := by
  decide

/-- Claim C7: a button edge less than 500 ms after the last accepted press
is a complete no-op - it leaves `currentIndex`, `lastPressTimestamp` and
`pendingTarget` (the whole state) unchanged - and therefore every later
edge inside the same 500 ms window is also a no-op. -/
theorem c7_debounce_noop :
    (∀ (s : SystemState) (btn : Button) (now : Nat),
      u32_sub now s.g_last_press_time < DEBOUNCE_MS → gpio_callback btn now s = s) ∧
    (∀ (s : SystemState) (es : List (Button × Nat)),
      (∀ e ∈ es, u32_sub e.2 s.g_last_press_time < DEBOUNCE_MS) →
      List.foldl (fun st e => gpio_callback e.1 e.2 st) s es = s) := by
  have h1 : ∀ (s : SystemState) (btn : Button) (now : Nat),
      u32_sub now s.g_last_press_time < DEBOUNCE_MS → gpio_callback btn now s = s := by
    intro s btn now h
    unfold gpio_callback
    rw [if_pos h]
  refine ⟨h1, ?_⟩
  intro s es
  induction es with
  | nil => intro _; rfl
  | cons e es ih =>
    intro h
    have he := h e (List.mem_cons_self e es)
    simp only [List.foldl_cons]
    rw [h1 s e.1 e.2 he]
    exact ih (fun x hx => h x (List.mem_cons_of_mem e hx))

/-- Witness for C7: after an accepted press at 600 ms, edges at 700 ms and
900 ms are inside the window and change nothing. -/
theorem c7_debounce_noop_witness :
    (u32_sub 700 (gpio_callback Button.B 600 initialState).g_last_press_time < DEBOUNCE_MS ∧
     gpio_callback Button.A 700 (gpio_callback Button.B 600 initialState) =
       gpio_callback Button.B 600 initialState) ∧
    List.foldl (fun st e => gpio_callback e.1 e.2 st) (gpio_callback Button.B 600 initialState)
        [(Button.A, 700), (Button.B, 900)] =
      gpio_callback Button.B 600 initialState :=
  ⟨⟨by decide, c7_debounce_noop.1 (gpio_callback Button.B 600 initialState) Button.A 700 (by decide)⟩,
   c7_debounce_noop.2 (gpio_callback Button.B 600 initialState)
     [(Button.A, 700), (Button.B, 900)] (by decide)⟩

/-- Claim C3: after a sample cycle the alert flag is true exactly when the
fresh calibrated temperature lies outside `[temp_min, temp_max]` or the
fresh calibrated humidity lies outside `[umid_min, umid_max]`, with the
comparisons taken literally (`value > max` or `value < min`, no
`min ≤ max` precondition); the pressure and altitude inputs never
influence the flag. -/
theorem c3_alert_iff_temp_or_humid_out_of_band :
    ∀ (s : SystemState) (t h pa pa' : ℚ) (altFn altFn' : ℚ → ℚ),
      ((sample_cycle t h pa altFn s).2 = true ↔
        ((sample_cycle t h pa altFn s).1.readings.g_temperatura > s.config.temp_max ∨
         (sample_cycle t h pa altFn s).1.readings.g_temperatura < s.config.temp_min ∨
         (sample_cycle t h pa altFn s).1.readings.g_umidade > s.config.umid_max ∨
         (sample_cycle t h pa altFn s).1.readings.g_umidade < s.config.umid_min)) ∧
      (sample_cycle t h pa altFn s).2 = (sample_cycle t h pa' altFn' s).2 := by
  intro s t h pa pa' altFn altFn'
  constructor
  · simp only [sample_cycle]
    split_ifs <;> (first | (simp_all; tauto) | simp_all)
  · simp only [sample_cycle]

/-- Claim C5: the 2000 ms sensor block overwrites all four calibrated
readings wholesale - each becomes the fresh metric value plus the
configured offset, independent of the previous readings - touching no
other state; it runs exactly when 2000 ms have elapsed; and no other
operation (button interrupt or request handler) ever writes the readings. -/
theorem c5_sample_cycle_overwrites_readings :
    (∀ (s : SystemState) (t h pa : ℚ) (altFn : ℚ → ℚ),
      (sample_cycle t h pa altFn s).1.readings.g_temperatura = t + s.config.temp_offset ∧
      (sample_cycle t h pa altFn s).1.readings.g_umidade = h + s.config.umid_offset ∧
      (sample_cycle t h pa altFn s).1.readings.g_pressao = pa / 1000 + s.config.press_offset ∧
      (sample_cycle t h pa altFn s).1.readings.g_altitude = altFn pa + s.config.alt_offset ∧
      (sample_cycle t h pa altFn s).1.config = s.config ∧
      (sample_cycle t h pa altFn s).1.g_target_page = s.g_target_page ∧
      (sample_cycle t h pa altFn s).1.g_current_page_index = s.g_current_page_index ∧
      (sample_cycle t h pa altFn s).1.g_last_press_time = s.g_last_press_time) ∧
    (∀ (s : SystemState) (r0 : Readings) (t h pa : ℚ) (altFn : ℚ → ℚ),
      (sample_cycle t h pa altFn { s with readings := r0 }).1.readings =
        (sample_cycle t h pa altFn s).1.readings) ∧
    (∀ (t h pa : ℚ) (altFn : ℚ → ℚ) (now last : Nat) (s : SystemState),
      u32_sub now last ≥ 2000 →
      loop_iteration t h pa altFn now last s = ((sample_cycle t h pa altFn s).1, now)) ∧
    (∀ (t h pa : ℚ) (altFn : ℚ → ℚ) (now last : Nat) (s : SystemState),
      u32_sub now last < 2000 →
      loop_iteration t h pa altFn now last s = (s, last)) ∧
    (∀ (btn : Button) (now : Nat) (s : SystemState),
      (gpio_callback btn now s).readings = s.readings) ∧
    (∀ (req : String) (s : SystemState),
      (tcp_server_recv req s).1.readings = s.readings) := by
  refine ⟨?_, ?_, ?_, ?_, ?_, ?_⟩
  · intro s t h pa altFn
    exact ⟨rfl, rfl, rfl, rfl, rfl, rfl, rfl, rfl⟩
  · intro s r0 t h pa altFn
    rfl
  · intro t h pa altFn now last s hge
    unfold loop_iteration
    rw [if_pos hge]
  · intro t h pa altFn now last s hlt
    unfold loop_iteration
    rw [if_neg (by omega)]
  · intro btn now s
    unfold gpio_callback
    split_ifs <;> rfl
  · intro req s
    unfold tcp_server_recv
    dsimp only
    split
    · split <;> rfl
    · split
      · split <;> rfl
      · split
        · rfl
        · split
          · rfl
          · rfl

/-- Witness for C5: a concrete cycle at 2000 ms from startup, and a skipped
cycle at 100 ms. -/
theorem c5_sample_cycle_overwrites_readings_witness :
    (u32_sub 2000 0 ≥ 2000 ∧
     loop_iteration 1 2 3000 (fun _ => 7) 2000 0 initialState =
       ((sample_cycle 1 2 3000 (fun _ => 7) initialState).1, 2000)) ∧
    (u32_sub 100 0 < 2000 ∧
     loop_iteration 1 2 3000 (fun _ => 7) 100 0 initialState = (initialState, 0)) :=
  ⟨⟨by decide,
    c5_sample_cycle_overwrites_readings.2.2.1 1 2 3000 (fun _ => 7) 2000 0 initialState (by decide)⟩,
   ⟨by decide,
    c5_sample_cycle_overwrites_readings.2.2.2.1 1 2 3000 (fun _ => 7) 100 0 initialState (by decide)⟩⟩

/-- A canonical browser request for the `/navigate` route. -/
def navReq : String := "GET /navigate HTTP/1.1\r\n\r\n"

/-- Claim C2: the navigation mailbox is read-and-clear with at-most-once
delivery - a `GET /navigate` with a pending route replies
`goto: route` and clears the slot, an immediately following `GET /navigate`
replies `goto: null`, any `GET /navigate` on an empty slot replies
`goto: null` and changes nothing, and at startup the slot is empty. -/
theorem c2_navigate_read_and_clear :
    (∀ (s : SystemState) (page : String), s.g_target_page = some page → page ∈ G_PAGES →
      tcp_server_recv navReq s =
        ({ s with g_target_page := none },
          [mkJsonHeader (cStrlen ("\x7b\"goto\":\"" ++ page ++ "\"\x7d")),
           "\x7b\"goto\":\"" ++ page ++ "\"\x7d"]) ∧
      tcp_server_recv navReq { s with g_target_page := none } =
        ({ s with g_target_page := none }, [mkJsonHeader 13, "\x7b\"goto\":null\x7d"])) ∧
    (∀ s : SystemState, s.g_target_page = none →
      tcp_server_recv navReq s = (s, [mkJsonHeader 13, "\x7b\"goto\":null\x7d"])) ∧
    initialState.g_target_page = none := by
  have hb : strstrB (cTrunc navReq 1023) "GET /navigate " = true := by decide
  have hp : cTrunc "\x7b\"goto\":null\x7d" 127 = "\x7b\"goto\":null\x7d" := by decide
  have hl : cStrlen "\x7b\"goto\":null\x7d" = 13 := by decide
  have hnone : ∀ s : SystemState, s.g_target_page = none →
      tcp_server_recv navReq s = (s, [mkJsonHeader 13, "\x7b\"goto\":null\x7d"]) := by
    intro s hs
    simp [tcp_server_recv, hb, hs, send_json_response, hp, hl]
  refine ⟨?_, hnone, rfl⟩
  intro s page hs hmem
  have hc : cTrunc ("\x7b\"goto\":\"" ++ page ++ "\"\x7d") 127 =
      "\x7b\"goto\":\"" ++ page ++ "\"\x7d" := by
    fin_cases hmem <;> decide
  refine ⟨?_, hnone { s with g_target_page := none } rfl⟩
  simp [tcp_server_recv, hb, hs, send_json_response, hc]

/-- Witness for C2: a pending `/config` route is delivered exactly once. -/
theorem c2_navigate_read_and_clear_witness :
    ({ initialState with g_target_page := some "/config" } : SystemState).g_target_page =
      some "/config" ∧
    "/config" ∈ G_PAGES ∧
    tcp_server_recv navReq { initialState with g_target_page := some "/config" } =
      ({ initialState with g_target_page := none },
        [mkJsonHeader (cStrlen ("\x7b\"goto\":\"" ++ "/config" ++ "\"\x7d")),
         "\x7b\"goto\":\"" ++ "/config" ++ "\"\x7d"]) ∧
    tcp_server_recv navReq { initialState with g_target_page := none } =
      ({ initialState with g_target_page := none },
        [mkJsonHeader 13, "\x7b\"goto\":null\x7d"]) :=
  ⟨rfl, by decide,
   (c2_navigate_read_and_clear.1 { initialState with g_target_page := some "/config" }
      "/config" rfl (by decide)).1,
   (c2_navigate_read_and_clear.1 { initialState with g_target_page := some "/config" }
      "/config" rfl (by decide)).2⟩
lemma applyKV_temp_offset (c : Config) (k : String) (v : ℚ) :
    (applyKV c k v).temp_offset = if k = "temp_offset" then v else c.temp_offset := by
  by_cases h1 : k = "temp_offset"
  · subst h1; rfl
  by_cases h2 : k = "temp_min"
  · subst h2; rfl
  by_cases h3 : k = "temp_max"
  · subst h3; rfl
  by_cases h4 : k = "umid_offset"
  · subst h4; rfl
  by_cases h5 : k = "umid_min"
  · subst h5; rfl
  by_cases h6 : k = "umid_max"
  · subst h6; rfl
  by_cases h7 : k = "press_offset"
  · subst h7; rfl
  by_cases h8 : k = "press_min"
  · subst h8; rfl
  by_cases h9 : k = "press_max"
  · subst h9; rfl
  by_cases h10 : k = "alt_offset"
  · subst h10; rfl
  by_cases h11 : k = "alt_min"
  · subst h11; rfl
  by_cases h12 : k = "alt_max"
  · subst h12; rfl
  rw [if_neg h1]
  delta applyKV
  rw [if_neg h1, if_neg h2, if_neg h3, if_neg h4, if_neg h5, if_neg h6, if_neg h7, if_neg h8, if_neg h9, if_neg h10, if_neg h11, if_neg h12]

lemma applyKV_temp_min (c : Config) (k : String) (v : ℚ) :
    (applyKV c k v).temp_min = if k = "temp_min" then v else c.temp_min := by
  by_cases h1 : k = "temp_offset"
  · subst h1; rfl
  by_cases h2 : k = "temp_min"
  · subst h2; rfl
  by_cases h3 : k = "temp_max"
  · subst h3; rfl
  by_cases h4 : k = "umid_offset"
  · subst h4; rfl
  by_cases h5 : k = "umid_min"
  · subst h5; rfl
  by_cases h6 : k = "umid_max"
  · subst h6; rfl
  by_cases h7 : k = "press_offset"
  · subst h7; rfl
  by_cases h8 : k = "press_min"
  · subst h8; rfl
  by_cases h9 : k = "press_max"
  · subst h9; rfl
  by_cases h10 : k = "alt_offset"
  · subst h10; rfl
  by_cases h11 : k = "alt_min"
  · subst h11; rfl
  by_cases h12 : k = "alt_max"
  · subst h12; rfl
  rw [if_neg h2]
  delta applyKV
  rw [if_neg h1, if_neg h2, if_neg h3, if_neg h4, if_neg h5, if_neg h6, if_neg h7, if_neg h8, if_neg h9, if_neg h10, if_neg h11, if_neg h12]

lemma applyKV_temp_max (c : Config) (k : String) (v : ℚ) :
    (applyKV c k v).temp_max = if k = "temp_max" then v else c.temp_max := by
  by_cases h1 : k = "temp_offset"
  · subst h1; rfl
  by_cases h2 : k = "temp_min"
  · subst h2; rfl
  by_cases h3 : k = "temp_max"
  · subst h3; rfl
  by_cases h4 : k = "umid_offset"
  · subst h4; rfl
  by_cases h5 : k = "umid_min"
  · subst h5; rfl
  by_cases h6 : k = "umid_max"
  · subst h6; rfl
  by_cases h7 : k = "press_offset"
  · subst h7; rfl
  by_cases h8 : k = "press_min"
  · subst h8; rfl
  by_cases h9 : k = "press_max"
  · subst h9; rfl
  by_cases h10 : k = "alt_offset"
  · subst h10; rfl
  by_cases h11 : k = "alt_min"
  · subst h11; rfl
  by_cases h12 : k = "alt_max"
  · subst h12; rfl
  rw [if_neg h3]
  delta applyKV
  rw [if_neg h1, if_neg h2, if_neg h3, if_neg h4, if_neg h5, if_neg h6, if_neg h7, if_neg h8, if_neg h9, if_neg h10, if_neg h11, if_neg h12]

lemma applyKV_umid_offset (c : Config) (k : String) (v : ℚ) :
    (applyKV c k v).umid_offset = if k = "umid_offset" then v else c.umid_offset := by
  by_cases h1 : k = "temp_offset"
  · subst h1; rfl
  by_cases h2 : k = "temp_min"
  · subst h2; rfl
  by_cases h3 : k = "temp_max"
  · subst h3; rfl
  by_cases h4 : k = "umid_offset"
  · subst h4; rfl
  by_cases h5 : k = "umid_min"
  · subst h5; rfl
  by_cases h6 : k = "umid_max"
  · subst h6; rfl
  by_cases h7 : k = "press_offset"
  · subst h7; rfl
  by_cases h8 : k = "press_min"
  · subst h8; rfl
  by_cases h9 : k = "press_max"
  · subst h9; rfl
  by_cases h10 : k = "alt_offset"
  · subst h10; rfl
  by_cases h11 : k = "alt_min"
  · subst h11; rfl
  by_cases h12 : k = "alt_max"
  · subst h12; rfl
  rw [if_neg h4]
  delta applyKV
  rw [if_neg h1, if_neg h2, if_neg h3, if_neg h4, if_neg h5, if_neg h6, if_neg h7, if_neg h8, if_neg h9, if_neg h10, if_neg h11, if_neg h12]

lemma applyKV_umid_min (c : Config) (k : String) (v : ℚ) :
    (applyKV c k v).umid_min = if k = "umid_min" then v else c.umid_min := by
  by_cases h1 : k = "temp_offset"
  · subst h1; rfl
  by_cases h2 : k = "temp_min"
  · subst h2; rfl
  by_cases h3 : k = "temp_max"
  · subst h3; rfl
  by_cases h4 : k = "umid_offset"
  · subst h4; rfl
  by_cases h5 : k = "umid_min"
  · subst h5; rfl
  by_cases h6 : k = "umid_max"
  · subst h6; rfl
  by_cases h7 : k = "press_offset"
  · subst h7; rfl
  by_cases h8 : k = "press_min"
  · subst h8; rfl
  by_cases h9 : k = "press_max"
  · subst h9; rfl
  by_cases h10 : k = "alt_offset"
  · subst h10; rfl
  by_cases h11 : k = "alt_min"
  · subst h11; rfl
  by_cases h12 : k = "alt_max"
  · subst h12; rfl
  rw [if_neg h5]
  delta applyKV
  rw [if_neg h1, if_neg h2, if_neg h3, if_neg h4, if_neg h5, if_neg h6, if_neg h7, if_neg h8, if_neg h9, if_neg h10, if_neg h11, if_neg h12]

lemma applyKV_umid_max (c : Config) (k : String) (v : ℚ) :
    (applyKV c k v).umid_max = if k = "umid_max" then v else c.umid_max := by
  by_cases h1 : k = "temp_offset"
  · subst h1; rfl
  by_cases h2 : k = "temp_min"
  · subst h2; rfl
  by_cases h3 : k = "temp_max"
  · subst h3; rfl
  by_cases h4 : k = "umid_offset"
  · subst h4; rfl
  by_cases h5 : k = "umid_min"
  · subst h5; rfl
  by_cases h6 : k = "umid_max"
  · subst h6; rfl
  by_cases h7 : k = "press_offset"
  · subst h7; rfl
  by_cases h8 : k = "press_min"
  · subst h8; rfl
  by_cases h9 : k = "press_max"
  · subst h9; rfl
  by_cases h10 : k = "alt_offset"
  · subst h10; rfl
  by_cases h11 : k = "alt_min"
  · subst h11; rfl
  by_cases h12 : k = "alt_max"
  · subst h12; rfl
  rw [if_neg h6]
  delta applyKV
  rw [if_neg h1, if_neg h2, if_neg h3, if_neg h4, if_neg h5, if_neg h6, if_neg h7, if_neg h8, if_neg h9, if_neg h10, if_neg h11, if_neg h12]

lemma applyKV_press_offset (c : Config) (k : String) (v : ℚ) :
    (applyKV c k v).press_offset = if k = "press_offset" then v else c.press_offset := by
  by_cases h1 : k = "temp_offset"
  · subst h1; rfl
  by_cases h2 : k = "temp_min"
  · subst h2; rfl
  by_cases h3 : k = "temp_max"
  · subst h3; rfl
  by_cases h4 : k = "umid_offset"
  · subst h4; rfl
  by_cases h5 : k = "umid_min"
  · subst h5; rfl
  by_cases h6 : k = "umid_max"
  · subst h6; rfl
  by_cases h7 : k = "press_offset"
  · subst h7; rfl
  by_cases h8 : k = "press_min"
  · subst h8; rfl
  by_cases h9 : k = "press_max"
  · subst h9; rfl
  by_cases h10 : k = "alt_offset"
  · subst h10; rfl
  by_cases h11 : k = "alt_min"
  · subst h11; rfl
  by_cases h12 : k = "alt_max"
  · subst h12; rfl
  rw [if_neg h7]
  delta applyKV
  rw [if_neg h1, if_neg h2, if_neg h3, if_neg h4, if_neg h5, if_neg h6, if_neg h7, if_neg h8, if_neg h9, if_neg h10, if_neg h11, if_neg h12]

lemma applyKV_press_min (c : Config) (k : String) (v : ℚ) :
    (applyKV c k v).press_min = if k = "press_min" then v else c.press_min := by
  by_cases h1 : k = "temp_offset"
  · subst h1; rfl
  by_cases h2 : k = "temp_min"
  · subst h2; rfl
  by_cases h3 : k = "temp_max"
  · subst h3; rfl
  by_cases h4 : k = "umid_offset"
  · subst h4; rfl
  by_cases h5 : k = "umid_min"
  · subst h5; rfl
  by_cases h6 : k = "umid_max"
  · subst h6; rfl
  by_cases h7 : k = "press_offset"
  · subst h7; rfl
  by_cases h8 : k = "press_min"
  · subst h8; rfl
  by_cases h9 : k = "press_max"
  · subst h9; rfl
  by_cases h10 : k = "alt_offset"
  · subst h10; rfl
  by_cases h11 : k = "alt_min"
  · subst h11; rfl
  by_cases h12 : k = "alt_max"
  · subst h12; rfl
  rw [if_neg h8]
  delta applyKV
  rw [if_neg h1, if_neg h2, if_neg h3, if_neg h4, if_neg h5, if_neg h6, if_neg h7, if_neg h8, if_neg h9, if_neg h10, if_neg h11, if_neg h12]

lemma applyKV_press_max (c : Config) (k : String) (v : ℚ) :
    (applyKV c k v).press_max = if k = "press_max" then v else c.press_max := by
  by_cases h1 : k = "temp_offset"
  · subst h1; rfl
  by_cases h2 : k = "temp_min"
  · subst h2; rfl
  by_cases h3 : k = "temp_max"
  · subst h3; rfl
  by_cases h4 : k = "umid_offset"
  · subst h4; rfl
  by_cases h5 : k = "umid_min"
  · subst h5; rfl
  by_cases h6 : k = "umid_max"
  · subst h6; rfl
  by_cases h7 : k = "press_offset"
  · subst h7; rfl
  by_cases h8 : k = "press_min"
  · subst h8; rfl
  by_cases h9 : k = "press_max"
  · subst h9; rfl
  by_cases h10 : k = "alt_offset"
  · subst h10; rfl
  by_cases h11 : k = "alt_min"
  · subst h11; rfl
  by_cases h12 : k = "alt_max"
  · subst h12; rfl
  rw [if_neg h9]
  delta applyKV
  rw [if_neg h1, if_neg h2, if_neg h3, if_neg h4, if_neg h5, if_neg h6, if_neg h7, if_neg h8, if_neg h9, if_neg h10, if_neg h11, if_neg h12]

lemma applyKV_alt_offset (c : Config) (k : String) (v : ℚ) :
    (applyKV c k v).alt_offset = if k = "alt_offset" then v else c.alt_offset := by
  by_cases h1 : k = "temp_offset"
  · subst h1; rfl
  by_cases h2 : k = "temp_min"
  · subst h2; rfl
  by_cases h3 : k = "temp_max"
  · subst h3; rfl
  by_cases h4 : k = "umid_offset"
  · subst h4; rfl
  by_cases h5 : k = "umid_min"
  · subst h5; rfl
  by_cases h6 : k = "umid_max"
  · subst h6; rfl
  by_cases h7 : k = "press_offset"
  · subst h7; rfl
  by_cases h8 : k = "press_min"
  · subst h8; rfl
  by_cases h9 : k = "press_max"
  · subst h9; rfl
  by_cases h10 : k = "alt_offset"
  · subst h10; rfl
  by_cases h11 : k = "alt_min"
  · subst h11; rfl
  by_cases h12 : k = "alt_max"
  · subst h12; rfl
  rw [if_neg h10]
  delta applyKV
  rw [if_neg h1, if_neg h2, if_neg h3, if_neg h4, if_neg h5, if_neg h6, if_neg h7, if_neg h8, if_neg h9, if_neg h10, if_neg h11, if_neg h12]

lemma applyKV_alt_min (c : Config) (k : String) (v : ℚ) :
    (applyKV c k v).alt_min = if k = "alt_min" then v else c.alt_min := by
  by_cases h1 : k = "temp_offset"
  · subst h1; rfl
  by_cases h2 : k = "temp_min"
  · subst h2; rfl
  by_cases h3 : k = "temp_max"
  · subst h3; rfl
  by_cases h4 : k = "umid_offset"
  · subst h4; rfl
  by_cases h5 : k = "umid_min"
  · subst h5; rfl
  by_cases h6 : k = "umid_max"
  · subst h6; rfl
  by_cases h7 : k = "press_offset"
  · subst h7; rfl
  by_cases h8 : k = "press_min"
  · subst h8; rfl
  by_cases h9 : k = "press_max"
  · subst h9; rfl
  by_cases h10 : k = "alt_offset"
  · subst h10; rfl
  by_cases h11 : k = "alt_min"
  · subst h11; rfl
  by_cases h12 : k = "alt_max"
  · subst h12; rfl
  rw [if_neg h11]
  delta applyKV
  rw [if_neg h1, if_neg h2, if_neg h3, if_neg h4, if_neg h5, if_neg h6, if_neg h7, if_neg h8, if_neg h9, if_neg h10, if_neg h11, if_neg h12]

lemma applyKV_alt_max (c : Config) (k : String) (v : ℚ) :
    (applyKV c k v).alt_max = if k = "alt_max" then v else c.alt_max := by
  by_cases h1 : k = "temp_offset"
  · subst h1; rfl
  by_cases h2 : k = "temp_min"
  · subst h2; rfl
  by_cases h3 : k = "temp_max"
  · subst h3; rfl
  by_cases h4 : k = "umid_offset"
  · subst h4; rfl
  by_cases h5 : k = "umid_min"
  · subst h5; rfl
  by_cases h6 : k = "umid_max"
  · subst h6; rfl
  by_cases h7 : k = "press_offset"
  · subst h7; rfl
  by_cases h8 : k = "press_min"
  · subst h8; rfl
  by_cases h9 : k = "press_max"
  · subst h9; rfl
  by_cases h10 : k = "alt_offset"
  · subst h10; rfl
  by_cases h11 : k = "alt_min"
  · subst h11; rfl
  by_cases h12 : k = "alt_max"
  · subst h12; rfl
  rw [if_neg h12]
  delta applyKV
  rw [if_neg h1, if_neg h2, if_neg h3, if_neg h4, if_neg h5, if_neg h6, if_neg h7, if_neg h8, if_neg h9, if_neg h10, if_neg h11, if_neg h12]

lemma foldl_applyToken_proj (pr : Config → ℚ) (key : String)
    (hpr : ∀ (c : Config) (k : String) (v : ℚ),
      pr (applyKV c k v) = if k = key then v else pr c) :
    ∀ (ts : List String) (c : Config),
      pr (List.foldl applyToken c ts) = ((lastVal key ts).map atofQ).getD (pr c) := by
  intro ts
  induction ts with
  | nil => intro c; rfl
  | cons t ts ih =>
    intro c
    simp only [List.foldl_cons, lastVal]
    rw [ih]
    cases hl : lastVal key ts with
    | some v => simp [hl]
    | none =>
      simp only [hl]
      cases hkv : kvOf t with
      | none => simp [applyToken, hkv]
      | some kv =>
        obtain ⟨k, v⟩ := kv
        simp only [applyToken, hkv]
        rw [hpr]
        by_cases hk : k = key
        · simp [hk]
        · simp [hk]

/-- The body of the counterexample POST: 512 bytes, so the 512-byte parse
buffer cuts the trailing `5` of `temp_min=25`. -/
def c4body : String := "x=" ++ String.mk (List.replicate 498 'a') ++ "&temp_min=25"

/-- Claim C4, counterexample: the body assigns the value text `25` to
`temp_min` (its last `&`-field is `temp_min=25`), whose permissive float
parse is `25`; but because `parse_post_data` copies only 511 bytes of the
512-byte body before tokenising, the code stores `2` instead. -/
theorem c4_truncation_counterexample :
    cStrlen c4body = 512 ∧
    lastVal "temp_min" ((splitStr "&" c4body).filter (fun t => t ≠ "")) = some "25" ∧
    atofQ "25" = 25 ∧
    (parse_post_data c4body initialConfig).temp_min = 2 ∧
    ((2 : ℚ) ≠ 25) :=
  of_decide_eq_true (by with_unfolding_all rfl)

/-- Claim C4 (amended: field values are read from the first 511 bytes of the
body, the capacity of the parse buffer): a `POST /config` body updates
exactly the recognized keys it names - each scalar becomes the permissive
float parse of the last value text assigned to its key in the truncated
body and every unnamed scalar is unchanged, so unknown keys are ignored
and fields without `=` are skipped - the readings and navigation state are
untouched, and the reply is the empty 200 response. -/
theorem c4_config_post_updates :
    (∀ (c : Config) (body : String),
      (parse_post_data body c).temp_offset =
        ((lastVal "temp_offset" (postTokens body)).map atofQ).getD c.temp_offset ∧
      (parse_post_data body c).temp_min =
        ((lastVal "temp_min" (postTokens body)).map atofQ).getD c.temp_min ∧
      (parse_post_data body c).temp_max =
        ((lastVal "temp_max" (postTokens body)).map atofQ).getD c.temp_max ∧
      (parse_post_data body c).umid_offset =
        ((lastVal "umid_offset" (postTokens body)).map atofQ).getD c.umid_offset ∧
      (parse_post_data body c).umid_min =
        ((lastVal "umid_min" (postTokens body)).map atofQ).getD c.umid_min ∧
      (parse_post_data body c).umid_max =
        ((lastVal "umid_max" (postTokens body)).map atofQ).getD c.umid_max ∧
      (parse_post_data body c).press_offset =
        ((lastVal "press_offset" (postTokens body)).map atofQ).getD c.press_offset ∧
      (parse_post_data body c).press_min =
        ((lastVal "press_min" (postTokens body)).map atofQ).getD c.press_min ∧
      (parse_post_data body c).press_max =
        ((lastVal "press_max" (postTokens body)).map atofQ).getD c.press_max ∧
      (parse_post_data body c).alt_offset =
        ((lastVal "alt_offset" (postTokens body)).map atofQ).getD c.alt_offset ∧
      (parse_post_data body c).alt_min =
        ((lastVal "alt_min" (postTokens body)).map atofQ).getD c.alt_min ∧
      (parse_post_data body c).alt_max =
        ((lastVal "alt_max" (postTokens body)).map atofQ).getD c.alt_max) ∧
    (∀ (s : SystemState) (req : String),
      strstrB (cTrunc req 1023) "GET /navigate " = false →
      strstrB (cTrunc req 1023) "POST /config " = true →
      (tcp_server_recv req s).2 = [empty200] ∧
      (tcp_server_recv req s).1.readings = s.readings ∧
      (tcp_server_recv req s).1.g_target_page = s.g_target_page ∧
      (tcp_server_recv req s).1.g_current_page_index = s.g_current_page_index ∧
      (tcp_server_recv req s).1.g_last_press_time = s.g_last_press_time ∧
      (tcp_server_recv req s).1.config =
        (match strstrAfter (cTrunc req 1023) "\r\n\r\n" with
         | some body => parse_post_data body s.config
         | none => s.config)) := by
  constructor
  · intro c body
    exact ⟨foldl_applyToken_proj (fun cc => cc.temp_offset) "temp_offset" applyKV_temp_offset _ c,
      foldl_applyToken_proj (fun cc => cc.temp_min) "temp_min" applyKV_temp_min _ c,
      foldl_applyToken_proj (fun cc => cc.temp_max) "temp_max" applyKV_temp_max _ c,
      foldl_applyToken_proj (fun cc => cc.umid_offset) "umid_offset" applyKV_umid_offset _ c,
      foldl_applyToken_proj (fun cc => cc.umid_min) "umid_min" applyKV_umid_min _ c,
      foldl_applyToken_proj (fun cc => cc.umid_max) "umid_max" applyKV_umid_max _ c,
      foldl_applyToken_proj (fun cc => cc.press_offset) "press_offset" applyKV_press_offset _ c,
      foldl_applyToken_proj (fun cc => cc.press_min) "press_min" applyKV_press_min _ c,
      foldl_applyToken_proj (fun cc => cc.press_max) "press_max" applyKV_press_max _ c,
      foldl_applyToken_proj (fun cc => cc.alt_offset) "alt_offset" applyKV_alt_offset _ c,
      foldl_applyToken_proj (fun cc => cc.alt_min) "alt_min" applyKV_alt_min _ c,
      foldl_applyToken_proj (fun cc => cc.alt_max) "alt_max" applyKV_alt_max _ c⟩
  · intro s req h1 h2
    simp only [tcp_server_recv, h1, h2]
    cases hm : strstrAfter (cTrunc req 1023) "\r\n\r\n" with
    | none => simp [hm]
    | some body => simp [hm]

/-- The concrete configuration POST of the specification test list. -/
def postCfgReq : String := "POST /config HTTP/1.1\r\n\r\ntemp_offset=1.5&umid_min=65"

/-- Witness for C4: the canonical `temp_offset=1.5&umid_min=65` POST takes
the empty-200 branch and rewrites the configuration exactly through
`parse_post_data`. -/
theorem c4_config_post_updates_witness :
    strstrB (cTrunc postCfgReq 1023) "GET /navigate " = false ∧
    strstrB (cTrunc postCfgReq 1023) "POST /config " = true ∧
    (tcp_server_recv postCfgReq initialState).2 = [empty200] ∧
    (tcp_server_recv postCfgReq initialState).1.readings = initialState.readings ∧
    (tcp_server_recv postCfgReq initialState).1.config =
      (match strstrAfter (cTrunc postCfgReq 1023) "\r\n\r\n" with
       | some body => parse_post_data body initialState.config
       | none => initialState.config) :=
  ⟨by decide, by decide,
   (c4_config_post_updates.2 initialState postCfgReq (by decide) (by decide)).1,
   (c4_config_post_updates.2 initialState postCfgReq (by decide) (by decide)).2.1,
   (c4_config_post_updates.2 initialState postCfgReq (by decide) (by decide)).2.2.2.2.2⟩

/-- A request whose request line addresses `/other` but whose header text
contains the token `GET /navigate `. -/
def c6req : String := "GET /other HTTP/1.1\r\nX-Note: GET /navigate \r\n\r\n"

/-- Claim C6, counterexample: this request has (method, path) =
(`GET`, `/other`), which matches no route-table entry, so the claim
requires the home-page response; the code routes by substring search, finds
`GET /navigate ` inside a header, and answers with the navigate JSON
instead. -/
theorem c6_substring_routing_counterexample :
    requestMethodPath c6req = ("GET", "/other") ∧
    ("GET", "/other") ∉ routeTable ∧
    (tcp_server_recv c6req initialState).2 = [mkJsonHeader 13, "\x7b\"goto\":null\x7d"] ∧
    (tcp_server_recv c6req initialState).2 ≠ send_full_response HTML_CONTENT_INICIO := by
  have h3 : (tcp_server_recv c6req initialState).2 =
      [mkJsonHeader 13, "\x7b\"goto\":null\x7d"] := by decide
  refine ⟨by decide, by decide, h3, ?_⟩
  rw [h3]
  intro hcontra
  have hlen := congrArg List.length hcontra
  have h2 : ([mkJsonHeader 13, "\x7b\"goto\":null\x7d"] : List String).length = 2 := rfl
  have h5 : (send_full_response HTML_CONTENT_INICIO).length = 5 := rfl
  rw [h2, h5] at hlen
  exact absurd hlen (by decide)

/-- Claim C6 (amended: the dispatcher routes by case-sensitive substring
search for the nine `METHOD path ` tokens anywhere in the first 1023 bytes
of the request, tried in the fixed source order; a request containing none
of them is answered with the home-page template at status 200, and a
request whose only token is its own request line is thereby routed exactly
as the (method, path) table prescribes). -/
theorem c6_routing_amended :
    (∀ (s : SystemState) (req : String),
      strstrB (cTrunc req 1023) "GET /navigate " = false →
      strstrB (cTrunc req 1023) "POST /config " = false →
      strstrB (cTrunc req 1023) "GET /getconfig " = false →
      strstrB (cTrunc req 1023) "GET /estado " = false →
      strstrB (cTrunc req 1023) "GET /config " = false →
      strstrB (cTrunc req 1023) "GET /temperatura " = false →
      strstrB (cTrunc req 1023) "GET /umidade " = false →
      strstrB (cTrunc req 1023) "GET /pressao " = false →
      strstrB (cTrunc req 1023) "GET /altitude " = false →
      tcp_server_recv req s = (s, send_full_response HTML_CONTENT_INICIO)) ∧
    (∀ (s : SystemState) (req : String),
      strstrB (cTrunc req 1023) "GET /navigate " = false →
      strstrB (cTrunc req 1023) "POST /config " = false →
      strstrB (cTrunc req 1023) "GET /getconfig " = true →
      tcp_server_recv req s = (s, send_json_response (cTrunc (getconfigJson s.config) 511))) ∧
    (∀ (s : SystemState) (req : String),
      strstrB (cTrunc req 1023) "GET /navigate " = false →
      strstrB (cTrunc req 1023) "POST /config " = false →
      strstrB (cTrunc req 1023) "GET /getconfig " = false →
      strstrB (cTrunc req 1023) "GET /estado " = true →
      tcp_server_recv req s = (s, send_json_response (cTrunc (estadoJson s.readings) 127))) ∧
    (∀ (s : SystemState) (req : String),
      strstrB (cTrunc req 1023) "GET /navigate " = false →
      strstrB (cTrunc req 1023) "POST /config " = false →
      strstrB (cTrunc req 1023) "GET /getconfig " = false →
      strstrB (cTrunc req 1023) "GET /estado " = false →
      strstrB (cTrunc req 1023) "GET /config " = true →
      tcp_server_recv req s = (s, send_full_response HTML_CONTENT_CONFIG)) ∧
    (∀ (s : SystemState) (req : String),
      strstrB (cTrunc req 1023) "GET /navigate " = false →
      strstrB (cTrunc req 1023) "POST /config " = false →
      strstrB (cTrunc req 1023) "GET /getconfig " = false →
      strstrB (cTrunc req 1023) "GET /estado " = false →
      strstrB (cTrunc req 1023) "GET /config " = false →
      (strstrB (cTrunc req 1023) "GET /temperatura " || strstrB (cTrunc req 1023) "GET /umidade "
        || strstrB (cTrunc req 1023) "GET /pressao "
        || strstrB (cTrunc req 1023) "GET /altitude ") = true →
      tcp_server_recv req s = (s, send_full_response HTML_CONTENT_CHART_PAGE)) ∧
    ((send_full_response HTML_CONTENT_INICIO).headD "" = mkHtmlHeader 3199 ∧
      startsWithC ("HTTP/1.1 200 OK").data (mkHtmlHeader 3199).data = true) := by
  refine ⟨?_, ?_, ?_, ?_, ?_, by decide, by decide⟩
  · intro s req h1 h2 h3 h4 h5 h6 h7 h8 h9
    simp [tcp_server_recv, h1, h2, h3, h4, h5, h6, h7, h8, h9]
  · intro s req h1 h2 h3
    simp [tcp_server_recv, h1, h2, h3]
  · intro s req h1 h2 h3 h4
    simp [tcp_server_recv, h1, h2, h3, h4]
  · intro s req h1 h2 h3 h4 h5
    simp [tcp_server_recv, h1, h2, h3, h4, h5]
  · intro s req h1 h2 h3 h4 h5 h6
    simp [tcp_server_recv, h1, h2, h3, h4, h5, h6]

/-- Witness for C6: `GET /doesnotexist` contains none of the nine routing
tokens and renders the home page. -/
theorem c6_routing_amended_witness :
    strstrB (cTrunc "GET /doesnotexist HTTP/1.1\r\n\r\n" 1023) "GET /navigate " = false ∧
    strstrB (cTrunc "GET /doesnotexist HTTP/1.1\r\n\r\n" 1023) "GET /config " = false ∧
    tcp_server_recv "GET /doesnotexist HTTP/1.1\r\n\r\n" initialState =
      (initialState, send_full_response HTML_CONTENT_INICIO) :=
  ⟨by decide, by decide,
   c6_routing_amended.1 initialState "GET /doesnotexist HTTP/1.1\r\n\r\n"
     (by decide) (by decide) (by decide) (by decide) (by decide)
     (by decide) (by decide) (by decide) (by decide)⟩

lemma cStrlen_join_four (a b c d : String) :
    cStrlen (String.join [a, b, c, d]) = cStrlen a + cStrlen b + cStrlen c + cStrlen d := by
  show cStrlen (((("" ++ a) ++ b) ++ c) ++ d) = _
  rw [cStrlen_append, cStrlen_append, cStrlen_append, cStrlen_append]
  simp [cStrlen]

lemma send_full_response_framing (tmpl : String) :
    ∃ (n : Nat) (body : List String),
      send_full_response tmpl = mkHtmlHeader n :: body ∧ n = cStrlen (String.join body) := by
  refine ⟨_,
    [HTML_HEADER, HTML_NAV,
     (if strstrB tmpl "%d" then cTrunc (substFmt tmpl) 4095 else cTrunc tmpl 4095),
     HTML_FOOTER], rfl, ?_⟩
  rw [cStrlen_join_four]

/-- Claim C8: for every request and state, the response the dispatcher
writes declares a Content-Length equal to the exact byte length of the
body chunks that follow the header, for each of the three header shapes
(HTML, JSON, and the empty config reply), with the length computed before
the body is written. -/
theorem c8_content_length_matches_body :
    ∀ (s : SystemState) (req : String), ∃ (n : Nat) (body : List String),
      ((tcp_server_recv req s).2 = mkHtmlHeader n :: body ∨
       (tcp_server_recv req s).2 = mkJsonHeader n :: body ∨
       ((tcp_server_recv req s).2 = [empty200] ∧ body = [])) ∧
      n = cStrlen (String.join body) := by
  intro s req
  cases hb1 : strstrB (cTrunc req 1023) "GET /navigate " with
  | true =>
    cases ht : s.g_target_page with
    | some page =>
      refine ⟨cStrlen (cTrunc ("\x7b\"goto\":\"" ++ page ++ "\"\x7d") 127),
        [cTrunc ("\x7b\"goto\":\"" ++ page ++ "\"\x7d") 127], Or.inr (Or.inl ?_), ?_⟩
      · simp [tcp_server_recv, hb1, ht, send_json_response]
      · rw [join_singleton]
    | none =>
      refine ⟨cStrlen (cTrunc "\x7b\"goto\":null\x7d" 127),
        [cTrunc "\x7b\"goto\":null\x7d" 127], Or.inr (Or.inl ?_), ?_⟩
      · simp [tcp_server_recv, hb1, ht, send_json_response]
      · rw [join_singleton]
  | false =>
    cases hb2 : strstrB (cTrunc req 1023) "POST /config " with
    | true =>
      refine ⟨0, [], Or.inr (Or.inr ⟨?_, rfl⟩), rfl⟩
      simp [tcp_server_recv, hb1, hb2]
    | false =>
      cases hb3 : strstrB (cTrunc req 1023) "GET /getconfig " with
      | true =>
        refine ⟨cStrlen (cTrunc (getconfigJson s.config) 511),
          [cTrunc (getconfigJson s.config) 511], Or.inr (Or.inl ?_), ?_⟩
        · simp [tcp_server_recv, hb1, hb2, hb3, send_json_response]
        · rw [join_singleton]
      | false =>
        cases hb4 : strstrB (cTrunc req 1023) "GET /estado " with
        | true =>
          refine ⟨cStrlen (cTrunc (estadoJson s.readings) 127),
            [cTrunc (estadoJson s.readings) 127], Or.inr (Or.inl ?_), ?_⟩
          · simp [tcp_server_recv, hb1, hb2, hb3, hb4, send_json_response]
          · rw [join_singleton]
        | false =>
          obtain ⟨n, body, hresp, hn⟩ := send_full_response_framing
            (if strstrB (cTrunc req 1023) "GET /config " then HTML_CONTENT_CONFIG
             else if strstrB (cTrunc req 1023) "GET /temperatura "
                 || strstrB (cTrunc req 1023) "GET /umidade "
                 || strstrB (cTrunc req 1023) "GET /pressao "
                 || strstrB (cTrunc req 1023) "GET /altitude " then HTML_CONTENT_CHART_PAGE
             else HTML_CONTENT_INICIO)
          refine ⟨n, body, Or.inl ?_, hn⟩
          rw [show (tcp_server_recv req s).2 =
              send_full_response
                (if strstrB (cTrunc req 1023) "GET /config " then HTML_CONTENT_CONFIG
                 else if strstrB (cTrunc req 1023) "GET /temperatura "
                     || strstrB (cTrunc req 1023) "GET /umidade "
                     || strstrB (cTrunc req 1023) "GET /pressao "
                     || strstrB (cTrunc req 1023) "GET /altitude " then HTML_CONTENT_CHART_PAGE
                 else HTML_CONTENT_INICIO) from by
            simp [tcp_server_recv, hb1, hb2, hb3, hb4]]
          exact hresp

/-- The configuration POST setting the temperature minimum to 5.0. -/
def postTempMinReq : String := "POST /config HTTP/1.1\r\n\r\ntemp_min=5.0"

/-- A canonical `/getconfig` request. -/
def getconfigReq : String := "GET /getconfig HTTP/1.1\r\n\r\n"

/-- The `/getconfig` payload after `temp_min` is set to 5 on the startup
configuration: every scalar is rendered with two-decimal fixed formatting
and `temp_min` reads exactly `5.00`. -/
def expectedGetconfigJson : String :=
  "\x7b\"temp_offset\":0.00,\"temp_min\":5.00,\"temp_max\":40.00,\"umid_offset\":0.00,\"umid_min\":60.00,\"umid_max\":85.00,\"press_offset\":0.00,\"press_min\":85.00,\"press_max\":105.00,\"alt_offset\":0.00,\"alt_min\":800.00,\"alt_max\":900.00\x7d"

/-- Claim C9: starting from the startup configuration, a `POST /config`
with body `temp_min=5.0` stores exactly 5 in `temp_min`, leaves the other
eleven scalars at their defaults, and a following `GET /getconfig` answers
with every scalar in two-decimal fixed formatting, `temp_min` rendered
exactly as `5.00`. -/
theorem c9_getconfig_roundtrip :
    ∀ s : SystemState, s.config = initialConfig →
      (tcp_server_recv postTempMinReq s).1.config = { initialConfig with temp_min := 5 } ∧
      (tcp_server_recv postTempMinReq s).1.config.temp_min = 5 ∧
      (tcp_server_recv getconfigReq (tcp_server_recv postTempMinReq s).1).2 =
        [mkJsonHeader (cStrlen expectedGetconfigJson), expectedGetconfigJson] := by
  intro s hcfg
  have hb1 : strstrB (cTrunc postTempMinReq 1023) "GET /navigate " = false := by decide
  have hb2 : strstrB (cTrunc postTempMinReq 1023) "POST /config " = true := by decide
  have hbody : strstrAfter (cTrunc postTempMinReq 1023) "\r\n\r\n" = some "temp_min=5.0" := by
    decide
  have hparse : parse_post_data "temp_min=5.0" initialConfig =
      { initialConfig with temp_min := 5 } :=
    of_decide_eq_true (by with_unfolding_all rfl)
  have hstate : (tcp_server_recv postTempMinReq s).1 =
      { s with config := { initialConfig with temp_min := 5 } } := by
    simp [tcp_server_recv, hb1, hb2, hbody, hcfg, hparse]
  have hg1 : strstrB (cTrunc getconfigReq 1023) "GET /navigate " = false := by decide
  have hg2 : strstrB (cTrunc getconfigReq 1023) "POST /config " = false := by decide
  have hg3 : strstrB (cTrunc getconfigReq 1023) "GET /getconfig " = true := by decide
  have hpayload : cTrunc (getconfigJson { initialConfig with temp_min := 5 }) 511 =
      expectedGetconfigJson :=
    of_decide_eq_true (by with_unfolding_all rfl)
  have hlen : cStrlen (cTrunc (getconfigJson { initialConfig with temp_min := 5 }) 511) =
      cStrlen expectedGetconfigJson := by rw [hpayload]
  refine ⟨by rw [hstate], by rw [hstate], ?_⟩
  rw [hstate]
  simp [tcp_server_recv, hg1, hg2, hg3, send_json_response, hpayload, hlen]

/-- Witness for C9: the round trip from the startup state itself. -/
theorem c9_getconfig_roundtrip_witness :
    initialState.config = initialConfig ∧
    (tcp_server_recv postTempMinReq initialState).1.config =
      { initialConfig with temp_min := 5 } ∧
    (tcp_server_recv getconfigReq (tcp_server_recv postTempMinReq initialState).1).2 =
      [mkJsonHeader (cStrlen expectedGetconfigJson), expectedGetconfigJson] :=
  ⟨rfl, (c9_getconfig_roundtrip initialState rfl).1,
   (c9_getconfig_roundtrip initialState rfl).2.2⟩

/-- Claim C10: a `POST /config` request with no header/body separator
leaves the whole state - in particular all twelve configuration scalars -
unchanged and still replies with the empty 200 response. -/
theorem c10_missing_separator_noop :
    ∀ (s : SystemState) (req : String),
      strstrB (cTrunc req 1023) "GET /navigate " = false →
      strstrB (cTrunc req 1023) "POST /config " = true →
      strstrAfter (cTrunc req 1023) "\r\n\r\n" = none →
      tcp_server_recv req s = (s, [empty200]) := by
  intro s req h1 h2 h3
  simp [tcp_server_recv, h1, h2, h3]

/-- Witness for C10: a truncated `POST /config` request line with no
`CRLFCRLF` separator. -/
theorem c10_missing_separator_noop_witness :
    strstrB (cTrunc "POST /config HTTP/1.1" 1023) "GET /navigate " = false ∧
    strstrB (cTrunc "POST /config HTTP/1.1" 1023) "POST /config " = true ∧
    strstrAfter (cTrunc "POST /config HTTP/1.1" 1023) "\r\n\r\n" = none ∧
    tcp_server_recv "POST /config HTTP/1.1" initialState = (initialState, [empty200]) :=
  ⟨by decide, by decide, by decide,
   c10_missing_separator_noop initialState "POST /config HTTP/1.1"
     (by decide) (by decide) (by decide)⟩
